import Mathlib

/-!
Verification development for the geospatial tiling and area-insights
aggregation subsystem (files `grid.py`, `places.py`, `agent_functions.py`).

The Python code works on IEEE doubles; the embedding works on exact
rationals (`ℚ`).  The two transcendental helpers used by the source,
`math.sqrt` and `math.cos ∘ math.radians`, are pure functions from floats
to floats; they are modelled as explicit function parameters (`sqrtFn`,
`cosr`) so that every theorem is stated for an arbitrary such function
(adding only the facts actually used, e.g. that `math.sqrt` of a positive
integer is positive).  All other arithmetic in the source is plain field
arithmetic and is translated literally.
-/

namespace Geo

/-- Loop epsilon from `grid.py` (`epsilon = 1e-9`), used in the tile
generation while-loop conditions. -/
def epsilon : ℚ := 1e-9

/-- Round half to even on rationals, the tie-breaking rule of the Python
built-in `round`. -/
def roundHalfEven (x : ℚ) : ℤ :=
  if Int.fract x = 1/2 then
    (if Int.floor x % 2 = 0 then Int.floor x else Int.floor x + 1)
  else
    round x

/-- Model of the Python built-in `round(x, ndigits)`: scale by `10 ^ ndigits`,
round to the nearest integer (ties to even), scale back. -/
def pyRound (x : ℚ) (ndigits : ℕ) : ℚ :=
  (roundHalfEven (x * 10 ^ ndigits) : ℚ) / 10 ^ ndigits

/-- A latitude/longitude pair, as in the polygon coordinate dictionaries of
`grid.py` (keys `latitude` / `longitude`). -/
structure Coord where
  latitude : ℚ
  longitude : ℚ
deriving DecidableEq, Repr

/-- The tile centroid dictionary of `grid.py` (keys `lat` / `lon`). -/
structure Centroid where
  lat : ℚ
  lon : ℚ
deriving DecidableEq, Repr

/-- One tile dictionary as produced by `TileGenerator.generate_tiles`. -/
structure Tile where
  id : ℕ
  centroid : Centroid
  polygon : List Coord
  area_sq_meters : ℚ
  area_sq_km : ℚ
deriving DecidableEq, Repr

/-- The bounding-box tuple `(south_west_lat, south_west_lon, north_east_lat,
north_east_lon)` of `grid.py`. -/
structure Bounds where
  sw_lat : ℚ
  sw_lon : ℚ
  ne_lat : ℚ
  ne_lon : ℚ
deriving DecidableEq, Repr

/-- The result dictionary of `TileGenerator._calculate_tile_size`. -/
structure TileSize where
  lat_tile_size : ℚ
  lon_tile_size : ℚ
deriving DecidableEq, Repr

/-- `TileGenerator` holds only the target tile count. -/
structure TileGenerator where
  target_tile_count : ℤ
deriving DecidableEq, Repr

/-- `TileGenerator.__init__`: raises `ValueError` unless the target tile
count is positive. -/
def TileGenerator.init (target_tile_count : ℤ) : Except String TileGenerator :=
  if target_tile_count ≤ 0 then
    .error ("Target tile count must be a positive number.")
  else
    .ok ⟨target_tile_count⟩

/-- `TileGenerator._calculate_tile_size`: each tile dimension is the box
extent divided by `tiles_per_side = sqrt(target_tile_count)` (the real
square root, not rounded; `sqrtFn` stands for `math.sqrt`). -/
def TileGenerator.calculate_tile_size (g : TileGenerator) (sqrtFn : ℤ → ℚ)
    (bounds : Bounds) : TileSize :=
  let lat_diff := bounds.ne_lat - bounds.sw_lat
  let lon_diff := bounds.ne_lon - bounds.sw_lon
  let tiles_per_side := sqrtFn g.target_tile_count
  { lat_tile_size := lat_diff / tiles_per_side
  , lon_tile_size := lon_diff / tiles_per_side }

theorem ceil_sub_one_of_pos {q : ℚ} (hq : 0 < q) :
    Nat.ceil (q - 1) = Nat.ceil q - 1 := by
  obtain ⟨m, hm⟩ : ∃ m, Nat.ceil q = m + 1 := by
    have h1 := Nat.one_le_ceil_iff.mpr hq
    exact ⟨Nat.ceil q - 1, by omega⟩
  cases m with
  | zero =>
    have h1 : Nat.ceil q ≤ 1 := by omega
    have h2 : q ≤ ((1 : ℕ) : ℚ) := Nat.ceil_le.mp h1
    have h3 : q - 1 ≤ 0 := by push_cast at h2; linarith
    rw [Nat.ceil_eq_zero.mpr h3, hm]
  | succ k =>
    have h1 := (Nat.ceil_eq_iff (Nat.succ_ne_zero (k + 1))).mp hm
    rw [hm]
    refine (Nat.ceil_eq_iff (Nat.succ_ne_zero k)).mpr ?_
    obtain ⟨hlo, hhi⟩ := h1
    push_cast at hlo hhi ⊢
    constructor <;> linarith

/-- One axis of the nested while-loops in `generate_tiles`:
`current = start; while current < hi: emit current; current += step`.
Here `hi` is the already-adjusted bound `ne - epsilon`.  The loop of the
source terminates because `step` is positive; the dependent guard makes the
definition total. -/
def axisSteps (hi step current : ℚ) : List ℚ :=
  if h : current < hi ∧ 0 < step then
    current :: axisSteps hi step (current + step)
  else
    []
termination_by Nat.ceil ((hi - current) / step)
decreasing_by
  have h1 : (0 : ℚ) < (hi - current) / step := div_pos (by linarith [h.1]) h.2
  have hne : step ≠ 0 := ne_of_gt h.2
  have h2 : (hi - (current + step)) / step = (hi - current) / step - 1 := by
    rw [div_sub_one hne]; ring_nf
  have h3 : 1 ≤ Nat.ceil ((hi - current) / step) := Nat.one_le_ceil_iff.mpr h1
  have h4 : Nat.ceil ((hi - current) / step - 1)
      = Nat.ceil ((hi - current) / step) - 1 := ceil_sub_one_of_pos h1
  simp only [h2, h4]
  omega

theorem axisSteps_eq_aux (hi step : ℚ) (hs : 0 < step) :
    ∀ (n : ℕ) (current : ℚ), Nat.ceil ((hi - current) / step) = n →
      axisSteps hi step current
        = (List.range n).map (fun i : ℕ => current + (i : ℚ) * step) := by
  intro n
  induction n with
  | zero =>
    intro current hc
    have hnot : ¬ current < hi := by
      intro hlt
      have hp : (0 : ℚ) < (hi - current) / step := div_pos (by linarith) hs
      have := Nat.one_le_ceil_iff.mpr hp
      omega
    rw [axisSteps]
    simp [hnot]
  | succ n ih =>
    intro current hc
    have hpos : (0 : ℚ) < (hi - current) / step := by
      by_contra hng
      push_neg at hng
      have : Nat.ceil ((hi - current) / step) = 0 := Nat.ceil_eq_zero.mpr hng
      omega
    have hlt : current < hi := by
      rcases div_pos_iff.mp hpos with ⟨h1, _⟩ | ⟨_, h2⟩
      · linarith
      · linarith
    have htail : Nat.ceil ((hi - (current + step)) / step) = n := by
      have h2 : (hi - (current + step)) / step = (hi - current) / step - 1 := by
        rw [div_sub_one (ne_of_gt hs)]; ring_nf
      rw [h2, ceil_sub_one_of_pos hpos, hc]
      omega
    rw [axisSteps]
    simp only [hlt, hs, and_self, dif_pos]
    rw [ih (current + step) htail]
    rw [List.range_succ_eq_map]
    simp only [List.map_cons, List.map_map]
    congr 1
    · push_cast; ring
    · apply List.map_congr_left
      intro i _
      simp only [Function.comp_apply]
      push_cast
      ring

/-- Closed form of the while-loop: with positive step it emits
`start + i * step` for `i = 0, 1, ...` while that value is `< hi`. -/
theorem axisSteps_eq (hi step current : ℚ) (hs : 0 < step) :
    axisSteps hi step current
      = (List.range (Nat.ceil ((hi - current) / step))).map
          (fun i : ℕ => current + (i : ℚ) * step) :=
  axisSteps_eq_aux hi step hs _ current rfl

/-- The body of the inner while-loop of `generate_tiles`: given the cell's
lower-left corner, build the tile dictionary (centroid, closed polygon
ring, rounded areas).  `cosr` stands for `math.cos ∘ math.radians`. -/
def mkTile (cosr : ℚ → ℚ) (lat_tile_size lon_tile_size : ℚ) (tile_id : ℕ)
    (current_lat current_lon : ℚ) : Tile :=
  let centroid_lat := current_lat + lat_tile_size / 2
  let centroid_lon := current_lon + lon_tile_size / 2
  let m_per_deg_lat : ℚ := 111132.954
  let m_per_deg_lon_base : ℚ := 111319.488
  let tile_height_m := lat_tile_size * m_per_deg_lat
  let tile_width_m := lon_tile_size * m_per_deg_lon_base * cosr centroid_lat
  let tile_area_sq_m := tile_height_m * tile_width_m
  let tile_area_sq_km := tile_area_sq_m / 1000000
  { id := tile_id
  , centroid := { lat := centroid_lat, lon := centroid_lon }
  , polygon :=
      [ { latitude := current_lat, longitude := current_lon }
      , { latitude := current_lat, longitude := current_lon + lon_tile_size }
      , { latitude := current_lat + lat_tile_size, longitude := current_lon + lon_tile_size }
      , { latitude := current_lat + lat_tile_size, longitude := current_lon }
      , { latitude := current_lat, longitude := current_lon } ]
  , area_sq_meters := pyRound tile_area_sq_m 2
  , area_sq_km := pyRound tile_area_sq_km 4 }

/-- The running `tile_id` counter of `generate_tiles`: tiles are numbered in
emission order, starting from the given counter value. -/
def assignTiles (cosr : ℚ → ℚ) (lat_tile_size lon_tile_size : ℚ) :
    ℕ → List (ℚ × ℚ) → List Tile
  | _, [] => []
  | n, c :: cs =>
      mkTile cosr lat_tile_size lon_tile_size n c.1 c.2
        :: assignTiles cosr lat_tile_size lon_tile_size (n + 1) cs

/-- `TileGenerator.generate_tiles`: validate the bounds, compute the tile
size, then sweep latitude (outer loop, south to north) and longitude (inner
loop, west to east), emitting one tile per cell with sequential ids. -/
def TileGenerator.generate_tiles (g : TileGenerator) (cosr : ℚ → ℚ)
    (sqrtFn : ℤ → ℚ) (bounds : Bounds) : Except String (List Tile) :=
  if bounds.ne_lat > bounds.sw_lat ∧ bounds.ne_lon > bounds.sw_lon then
    let ts := g.calculate_tile_size sqrtFn bounds
    let lats := axisSteps (bounds.ne_lat - epsilon) ts.lat_tile_size bounds.sw_lat
    let lons := axisSteps (bounds.ne_lon - epsilon) ts.lon_tile_size bounds.sw_lon
    .ok (assignTiles cosr ts.lat_tile_size ts.lon_tile_size 0
      (lats.flatMap (fun la => lons.map (fun lo => (la, lo)))))
  else
    .error ("Invalid bounds: North-East corner must be north and east of South-West corner.")

/-- The bounding-box computation inlined in
`TileGenerator.generate_tiles_from_center` (lines 55-70 of `grid.py`):
meters-per-degree constants, the `m_per_deg_lon == 0` pole guard, and the
symmetric half extents. -/
def boundsFromCenter (cosr : ℚ → ℚ) (center_lat center_lon box_size_meters : ℚ) :
    Bounds :=
  let m_per_deg_lat : ℚ := 111132.954
  let m_per_deg_lon0 : ℚ := 111319.488 * cosr center_lat
  let m_per_deg_lon : ℚ := if m_per_deg_lon0 = 0 then 0.001 else m_per_deg_lon0
  let half_box_lat_deg := (box_size_meters / 2) / m_per_deg_lat
  let half_box_lon_deg := (box_size_meters / 2) / m_per_deg_lon
  { sw_lat := center_lat - half_box_lat_deg
  , sw_lon := center_lon - half_box_lon_deg
  , ne_lat := center_lat + half_box_lat_deg
  , ne_lon := center_lon + half_box_lon_deg }

/-- `TileGenerator.generate_tiles_from_center`: build the box around the
center, then generate the tiles inside it. -/
def TileGenerator.generate_tiles_from_center (g : TileGenerator) (cosr : ℚ → ℚ)
    (sqrtFn : ℤ → ℚ) (center_lat center_lon box_size_meters : ℚ) :
    Except String (List Tile) :=
  g.generate_tiles cosr sqrtFn (boundsFromCenter cosr center_lat center_lon box_size_meters)

/-- A JSON scalar as it appears in the remote responses handled by
`agent_functions.py`: the count field may arrive as a number or as text. -/
inductive JVal where
  | num (n : ℤ)
  | str (s : String)
deriving DecidableEq, Repr

/-- A JSON object modelled as an association list (the response
dictionaries of `places.py` / `agent_functions.py`). -/
abbrev JObj := List (String × JVal)

/-- Dictionary lookup, `d.get(key)`. -/
def JObj.get (o : JObj) (k : String) : Option JVal :=
  (o.find? (fun p => p.1 == k)).map (fun p => p.2)

/-- Python truthiness of a dictionary-valued `d.get(key)`: the key must be
present and the dictionary non-empty. -/
def truthyObj : Option JObj → Bool
  | some o => !o.isEmpty
  | none => false

/-- Drop leading space characters (one side of Python string stripping). -/
def dropSpaces : List Char → List Char
  | [] => []
  | c :: cs => if c = ' ' then dropSpaces cs else c :: cs

/-- Strip spaces from both ends, as `int` does with its string argument. -/
def stripChars (cs : List Char) : List Char :=
  (dropSpaces (dropSpaces cs).reverse).reverse

/-- Accumulate a decimal value over digit characters; any non-digit makes
the parse fail. -/
def digitsToNat (acc : ℕ) : List Char → Option ℕ
  | [] => some acc
  | c :: cs => if c.isDigit then digitsToNat (acc * 10 + (c.toNat - 48)) cs else none

/-- Parse an optionally signed, non-empty decimal integer, the strings the
Python built-in `int` accepts (base 10). -/
def parseIntChars : List Char → Option ℤ
  | [] => none
  | '-' :: rest => if rest = [] then none else (digitsToNat 0 rest).map (fun n => -(n : ℤ))
  | '+' :: rest => if rest = [] then none else (digitsToNat 0 rest).map (fun n => (n : ℤ))
  | cs => (digitsToNat 0 cs).map (fun n => (n : ℤ))

/-- The Python built-in `int` applied to a response value: integers pass
through, strings must parse as an (optionally signed, space-stripped)
decimal integer, anything else raises `ValueError`. -/
def pyInt : JVal → Except String ℤ
  | .num n => .ok n
  | .str s =>
    match parseIntChars (stripChars s.data) with
    | some n => .ok n
    | none => .error ("invalid literal for int with base 10: " ++ s)

/-- The `locationFilter` object built by
`PlacesAggregateAPI.compute_insights`: either a custom polygon area or a
circle. -/
inductive LocationFilter where
  | customArea (polygon : List Coord)
  | circle (latitude longitude radius : ℚ)
deriving DecidableEq

/-- The optional `ratingFilter` object of `compute_insights`. -/
structure RatingFilter where
  minRating : Option ℚ := none
  maxRating : Option ℚ := none
deriving DecidableEq

/-- The request payload `compute_insights` sends to the `computeInsights`
endpoint (`insights` plus the `filter` object with its nested fields). -/
structure Payload where
  insights : List String
  locationFilter : LocationFilter
  includedTypes : List String
  excludedTypes : Option (List String) := none
  operatingStatus : Option (List String) := none
  priceLevels : Option (List String) := none
  ratingFilter : Option RatingFilter := none
deriving DecidableEq

/-- The payload-building part of `PlacesAggregateAPI.compute_insights`
(`places.py` lines 112-173), up to the remote POST.  A polygon-shaped
location filter forces the insight list to `["INSIGHT_COUNT"]`; with no
area at all it raises `ValueError`.  `included_types` is already a list in
every call site modelled here, so the `isinstance(included_types, str)`
coercion is the identity.  An empty `excluded_types` list is falsy in
Python and therefore omitted, while `operating_status` and `price_levels`
are included whenever they are not `None`. -/
def compute_insights_payload (insights : List String) (included_types : List String)
    (latitude longitude radius : Option ℚ) (custom_area : Option (List Coord))
    (excluded_types : Option (List String)) (rating_min rating_max : Option ℚ)
    (operating_status price_levels : Option (List String)) :
    Except String Payload := do
  let (location_filter, final_insights) ←
    match custom_area with
    | some poly =>
      pure (LocationFilter.customArea poly,
        if "INSIGHT_COUNT" ∉ insights ∨ insights.length > 1
        then ["INSIGHT_COUNT"] else insights)
    | none =>
      match latitude, longitude, radius with
      | some la, some lo, some r => pure (LocationFilter.circle la lo r, insights)
      | _, _, _ =>
        Except.error
          ("Either a circular area (latitude, longitude, radius) or a custom_area (polygon) must be provided for the location filter.")
  let excludedTypes : Option (List String) :=
    match excluded_types with
    | some l => if l = [] then none else some l
    | none => none
  let ratingFilter : Option RatingFilter :=
    if rating_min.isSome ∨ rating_max.isSome
    then some { minRating := rating_min, maxRating := rating_max }
    else none
  pure { insights := final_insights
       , locationFilter := location_filter
       , includedTypes := included_types
       , excludedTypes := excludedTypes
       , operatingStatus := operating_status
       , priceLevels := price_levels
       , ratingFilter := ratingFilter }

/-- Outcome of one attempted remote `computeInsights` call, as observed by
`find_places_nearby_polygon`'s `try` block: `_post_request` returns
`(True, json)` or `(False, error_info)`, and any other exception raised
inside the block (client construction, network library, ...) is modelled
by `raised`.  The whole remote side is opaque to the code under
verification, so it enters the embedding as a function from the payload to
this outcome. -/
inductive RemoteOutcome where
  | success (resp : JObj)
  | failure (error reason : String)
  | raised (msg : String)

/-- The fields of `find_places_nearby_polygon`'s result dictionary that its
callers read (`success`, `response`, `error`, `reason`; the `request` echo
is never read by `find_places_in_grid` and is omitted). -/
structure PolyResult where
  success : Bool
  response : Option JObj := none
  error : Option String := none
  reason : Option String := none

/-- `find_places_nearby_polygon` (`agent_functions.py` lines 147-204): force
the insight list to `["INSIGHT_COUNT"]`, call `compute_insights` with the
polygon as the custom area, and catch every exception into a
`success=False` dictionary. -/
def find_places_nearby_polygon (oracle : Payload → RemoteOutcome)
    (polygon : List Coord) (place_types insights : List String)
    (excluded_types : Option (List String)) (rating_min rating_max : Option ℚ)
    (operating_status price_levels : Option (List String)) : PolyResult :=
  let forced_insights := ["INSIGHT_COUNT"]
  match compute_insights_payload forced_insights place_types none none none
      (some polygon) excluded_types rating_min rating_max operating_status price_levels with
  | .error msg => { success := false, error := some ("Exception"), reason := some msg }
  | .ok payload =>
    match oracle payload with
    | .success resp => { success := true, response := some resp }
    | .failure e r => { success := false, error := some e, reason := some r }
    | .raised m => { success := false, error := some ("Exception"), reason := some m }

/-- One simplified per-tile entry of `find_places_in_grid`'s
`grid_results`. -/
structure TileResult where
  tile_id : ℕ
  lat : ℚ
  lon : ℚ
  tile_area_sq_km : ℚ
  success : Bool
  count : ℤ
deriving DecidableEq, Repr

/-- The dictionary returned by `find_places_in_grid`. -/
structure GridOutcome where
  success : Bool
  grid_results : Option (List TileResult) := none
  error : Option String := none
  reason : Option String := none
deriving DecidableEq, Repr

/-- The body of `find_places_in_grid`'s per-tile loop: run the polygon
search for the tile and simplify the result.  The `int(...)` coercion of
the returned count lives here, outside the per-tile `try` of
`find_places_nearby_polygon`, so a parse failure escapes as an exception
(modelled by `Except.error`). -/
def tileStep (oracle : Payload → RemoteOutcome) (place_types insights : List String)
    (excluded_types : Option (List String)) (rating_min rating_max : Option ℚ)
    (operating_status price_levels : Option (List String)) (tile : Tile) :
    Except String TileResult := do
  let search_result := find_places_nearby_polygon oracle tile.polygon place_types
    insights excluded_types rating_min rating_max operating_status price_levels
  let success := search_result.success
  let count : ℤ ←
    if success && truthyObj search_result.response then
      pyInt (((search_result.response.getD []).get ("count")).getD (JVal.num 0))
    else
      pure 0
  pure { tile_id := tile.id
       , lat := tile.centroid.lat
       , lon := tile.centroid.lon
       , tile_area_sq_km := tile.area_sq_km
       , success := success
       , count := count }

/-- The sequential result-collection loop of `find_places_in_grid`: tiles
are processed one at a time in order; an exception in any step aborts the
loop and discards the list built so far. -/
def collectResults (oracle : Payload → RemoteOutcome)
    (place_types insights : List String) (excluded_types : Option (List String))
    (rating_min rating_max : Option ℚ)
    (operating_status price_levels : Option (List String)) :
    List Tile → Except String (List TileResult)
  | [] => .ok []
  | t :: ts => do
    let r ← tileStep oracle place_types insights excluded_types rating_min
      rating_max operating_status price_levels t
    let rs ← collectResults oracle place_types insights excluded_types rating_min
      rating_max operating_status price_levels ts
    pure (r :: rs)

/-- `find_places_in_grid` (`agent_functions.py` lines 207-288): build the
tile generator, generate the grid from the center point, run the polygon
search per tile, and catch any exception of the whole block into
`{success: False, error: "Exception", reason: str(e)}`. -/
def find_places_in_grid (cosr : ℚ → ℚ) (sqrtFn : ℤ → ℚ)
    (oracle : Payload → RemoteOutcome) (latitude longitude box_size_meters : ℚ)
    (tile_count : ℤ) (place_types insights : List String)
    (excluded_types : Option (List String)) (rating_min rating_max : Option ℚ)
    (operating_status price_levels : Option (List String)) : GridOutcome :=
  match (do
      let tile_generator ← TileGenerator.init tile_count
      let tiles ← tile_generator.generate_tiles_from_center cosr sqrtFn
        latitude longitude box_size_meters
      collectResults oracle place_types insights excluded_types rating_min
        rating_max operating_status price_levels tiles :
      Except String (List TileResult)) with
  | .ok results => { success := true, grid_results := some results }
  | .error e => { success := false, error := some ("Exception"), reason := some e }

/-! ### Helper lemmas about the tile-generation loops -/

theorem mkTile_id (cosr : ℚ → ℚ) (a b : ℚ) (n : ℕ) (x y : ℚ) :
    (mkTile cosr a b n x y).id = n := rfl

theorem mkTile_centroid (cosr : ℚ → ℚ) (a b : ℚ) (n : ℕ) (x y : ℚ) :
    (mkTile cosr a b n x y).centroid = { lat := x + a / 2, lon := y + b / 2 } := rfl

theorem mkTile_polygon (cosr : ℚ → ℚ) (a b : ℚ) (n : ℕ) (x y : ℚ) :
    (mkTile cosr a b n x y).polygon =
      [ { latitude := x, longitude := y }
      , { latitude := x, longitude := y + b }
      , { latitude := x + a, longitude := y + b }
      , { latitude := x + a, longitude := y }
      , { latitude := x, longitude := y } ] := rfl

theorem assignTiles_append (cosr : ℚ → ℚ) (a b : ℚ) (n : ℕ)
    (xs ys : List (ℚ × ℚ)) :
    assignTiles cosr a b n (xs ++ ys)
      = assignTiles cosr a b n xs ++ assignTiles cosr a b (n + xs.length) ys := by
  induction xs generalizing n with
  | nil => simp [assignTiles]
  | cons c cs ih =>
    simp only [List.cons_append, assignTiles, List.length_cons, List.append_eq]
    rw [ih]
    rw [show n + (cs.length + 1) = n + 1 + cs.length by omega]

theorem assignTiles_map_range (cosr : ℚ → ℚ) (a b : ℚ) (n cols : ℕ)
    (f : ℕ → ℚ × ℚ) :
    assignTiles cosr a b n ((List.range cols).map f)
      = (List.range cols).map (fun j => mkTile cosr a b (n + j) (f j).1 (f j).2) := by
  induction cols with
  | zero => simp [assignTiles]
  | succ c ih =>
    rw [List.range_succ, List.map_append, assignTiles_append, ih]
    simp [assignTiles, List.range_succ]

theorem rangeBind_length {α : Type} (rows cols : ℕ) (f : ℕ → ℕ → α) :
    ((List.range rows).flatMap (fun i => (List.range cols).map (f i))).length
      = rows * cols := by
  induction rows with
  | zero => simp
  | succ r ih =>
    rw [List.range_succ, List.flatMap_append, List.length_append, ih]
    simp [Nat.succ_mul]

theorem assignTiles_rangeBind (cosr : ℚ → ℚ) (a b : ℚ) (rows cols : ℕ)
    (f g : ℕ → ℚ) :
    assignTiles cosr a b 0
      ((List.range rows).flatMap (fun i => (List.range cols).map (fun j => (f i, g j))))
      = (List.range rows).flatMap (fun i => (List.range cols).map
          (fun j => mkTile cosr a b (i * cols + j) (f i) (g j))) := by
  induction rows with
  | zero => simp [assignTiles]
  | succ r ih =>
    have hlen : ((List.range r).flatMap
        (fun i => (List.range cols).map (fun j => (f i, g j)))).length = r * cols :=
      rangeBind_length r cols _
    calc assignTiles cosr a b 0
          ((List.range (r + 1)).flatMap fun i => (List.range cols).map fun j => (f i, g j))
        = assignTiles cosr a b 0
            (((List.range r).flatMap fun i => (List.range cols).map fun j => (f i, g j))
              ++ (List.range cols).map fun j => (f r, g j)) := by
          rw [List.range_succ, List.flatMap_append, List.flatMap_singleton]
      _ = ((List.range r).flatMap fun i => (List.range cols).map
              fun j => mkTile cosr a b (i * cols + j) (f i) (g j))
            ++ assignTiles cosr a b (0 + r * cols)
              ((List.range cols).map fun j => (f r, g j)) := by
          rw [assignTiles_append, hlen, ih]
      _ = ((List.range r).flatMap fun i => (List.range cols).map
              fun j => mkTile cosr a b (i * cols + j) (f i) (g j))
            ++ (List.range cols).map fun j => mkTile cosr a b (r * cols + j) (f r) (g j) := by
          rw [assignTiles_map_range]
          congr 1
          apply List.map_congr_left
          intro j _
          congr 1
          omega
      _ = (List.range (r + 1)).flatMap fun i => (List.range cols).map
            fun j => mkTile cosr a b (i * cols + j) (f i) (g j) := by
          rw [List.range_succ, List.flatMap_append, List.flatMap_singleton]

theorem range_flatMap_mul (rows cols : ℕ) :
    ((List.range rows).flatMap (fun i => (List.range cols).map (fun j => i * cols + j)))
      = List.range (rows * cols) := by
  induction rows with
  | zero => simp
  | succ r ih =>
    rw [List.range_succ, List.flatMap_append, ih, List.flatMap_singleton]
    rw [Nat.succ_mul, List.range_add]

/-- The idealized grid: `rows × cols` cells in row-major order (south to
north, then west to east), with sequential ids. -/
def tileGridSpec (cosr : ℚ → ℚ) (lat_ts lon_ts sw_lat sw_lon : ℚ)
    (rows cols : ℕ) : List Tile :=
  (List.range rows).flatMap fun i =>
    (List.range cols).map fun j =>
      mkTile cosr lat_ts lon_ts (i * cols + j)
        (sw_lat + (i : ℚ) * lat_ts) (sw_lon + (j : ℚ) * lon_ts)

/-- Number of rows the latitude while-loop of `generate_tiles` executes,
in closed form. -/
def rowsOf (sw ne step : ℚ) : ℕ := Nat.ceil ((ne - epsilon - sw) / step)

/-- Closed form of `generate_tiles` on valid bounds: the grid of
`rowsOf × rowsOf` cells stepped from the south-west corner. -/
theorem generate_tiles_closed (g : TileGenerator) (cosr : ℚ → ℚ)
    (sqrtFn : ℤ → ℚ) (b : Bounds)
    (hb : b.ne_lat > b.sw_lat ∧ b.ne_lon > b.sw_lon)
    (hs : 0 < sqrtFn g.target_tile_count) :
    g.generate_tiles cosr sqrtFn b = .ok (tileGridSpec cosr
      ((b.ne_lat - b.sw_lat) / sqrtFn g.target_tile_count)
      ((b.ne_lon - b.sw_lon) / sqrtFn g.target_tile_count)
      b.sw_lat b.sw_lon
      (rowsOf b.sw_lat b.ne_lat ((b.ne_lat - b.sw_lat) / sqrtFn g.target_tile_count))
      (rowsOf b.sw_lon b.ne_lon ((b.ne_lon - b.sw_lon) / sqrtFn g.target_tile_count))) := by
  have hlat : (0 : ℚ) < (b.ne_lat - b.sw_lat) / sqrtFn g.target_tile_count :=
    div_pos (by linarith [hb.1]) hs
  have hlon : (0 : ℚ) < (b.ne_lon - b.sw_lon) / sqrtFn g.target_tile_count :=
    div_pos (by linarith [hb.2]) hs
  simp only [TileGenerator.generate_tiles, TileGenerator.calculate_tile_size]
  rw [if_pos hb]
  rw [axisSteps_eq _ _ _ hlat, axisSteps_eq _ _ _ hlon]
  rw [List.flatMap_map]
  simp only [List.map_map, Function.comp_def]
  rw [assignTiles_rangeBind]
  unfold tileGridSpec rowsOf
  rfl

theorem tileGridSpec_length (cosr : ℚ → ℚ) (a b sw sw2 : ℚ) (rows cols : ℕ) :
    (tileGridSpec cosr a b sw sw2 rows cols).length = rows * cols :=
  rangeBind_length rows cols _

theorem tileGridSpec_map_id (cosr : ℚ → ℚ) (a b sw sw2 : ℚ) (rows cols : ℕ) :
    (tileGridSpec cosr a b sw sw2 rows cols).map Tile.id = List.range (rows * cols) := by
  unfold tileGridSpec
  rw [List.map_flatMap]
  calc ((List.range rows).flatMap fun i =>
          ((List.range cols).map fun j => mkTile cosr a b (i * cols + j)
            (sw + (i : ℚ) * a) (sw2 + (j : ℚ) * b)).map Tile.id)
      = (List.range rows).flatMap fun i => (List.range cols).map fun j => i * cols + j := by
        congr 1
        funext i
        rw [List.map_map]
        congr 1
    _ = List.range (rows * cols) := range_flatMap_mul rows cols

theorem tileGridSpec_mem (cosr : ℚ → ℚ) (a b sw sw2 : ℚ) (rows cols : ℕ)
    (t : Tile) (h : t ∈ tileGridSpec cosr a b sw sw2 rows cols) :
    ∃ i j, i < rows ∧ j < cols
      ∧ t = mkTile cosr a b (i * cols + j) (sw + (i : ℚ) * a) (sw2 + (j : ℚ) * b) := by
  unfold tileGridSpec at h
  rw [List.mem_flatMap] at h
  obtain ⟨i, hi, hm⟩ := h
  rw [List.mem_map] at hm
  obtain ⟨j, hj, rfl⟩ := hm
  exact ⟨i, j, List.mem_range.mp hi, List.mem_range.mp hj, rfl⟩

theorem epsilon_pos : (0 : ℚ) < epsilon := by norm_num [epsilon]

/-- At least one loop iteration exactly when the extent exceeds the loop
epsilon (the first condition check does not involve the step size). -/
theorem rowsOf_pos (sw ne step : ℚ) (hstep : 0 < step) (h : epsilon < ne - sw) :
    1 ≤ rowsOf sw ne step := by
  unfold rowsOf
  exact Nat.one_le_ceil_iff.mpr (div_pos (by linarith) hstep)

/-- With an exact integer `tiles_per_side = k` and a per-tile size above the
loop epsilon, the while-loop runs exactly `k` times. -/
theorem rowsOf_eq (sw ne : ℚ) (k : ℕ) (hk : 0 < k)
    (hgt : epsilon < (ne - sw) / (k : ℚ)) :
    rowsOf sw ne ((ne - sw) / (k : ℚ)) = k := by
  have hk0 : (0 : ℚ) < (k : ℚ) := by exact_mod_cast hk
  have hd : (0 : ℚ) < ne - sw := by
    by_contra hng
    push_neg at hng
    have : (ne - sw) / (k : ℚ) ≤ 0 := div_nonpos_of_nonpos_of_nonneg hng (le_of_lt hk0)
    linarith [epsilon_pos]
  have hstep : (0 : ℚ) < (ne - sw) / (k : ℚ) := div_pos hd hk0
  have hkd : (k : ℚ) * ((ne - sw) / (k : ℚ)) = ne - sw := by
    field_simp
  unfold rowsOf
  rw [Nat.ceil_eq_iff (by omega)]
  constructor
  · rw [lt_div_iff hstep]
    rw [Nat.cast_sub (by omega : 1 ≤ k)]
    have hexp : ((k : ℚ) - 1) * ((ne - sw) / (k : ℚ)) = (ne - sw) - (ne - sw) / (k : ℚ) := by
      field_simp
      ring
    push_cast
    rw [hexp]
    linarith [hgt]
  · rw [div_le_iff hstep, hkd]
    linarith [epsilon_pos]

/-! ### Helper lemmas about Python rounding -/

theorem roundHalfEven_abs_le (x : ℚ) : |(roundHalfEven x : ℚ) - x| ≤ 1 / 2 := by
  unfold roundHalfEven
  by_cases h : Int.fract x = 1 / 2
  · have hx : x = (Int.floor x : ℚ) + 1 / 2 := by
      have hf := Int.floor_add_fract x
      rw [h] at hf
      linarith
    rw [if_pos h]
    by_cases he : Int.floor x % 2 = 0
    · rw [if_pos he, abs_le]
      constructor <;> linarith [hx]
    · rw [if_neg he, abs_le]
      push_cast
      constructor <;> linarith [hx]
  · rw [if_neg h]
    rw [abs_sub_comm]
    exact abs_sub_round x

theorem pyRound_abs_le (x : ℚ) (n : ℕ) :
    |pyRound x n - x| ≤ 1 / (2 * 10 ^ n) := by
  unfold pyRound
  have h10 : (0 : ℚ) < 10 ^ n := by positivity
  have h := roundHalfEven_abs_le (x * 10 ^ n)
  have heq : (roundHalfEven (x * 10 ^ n) : ℚ) / 10 ^ n - x
      = ((roundHalfEven (x * 10 ^ n) : ℚ) - x * 10 ^ n) / 10 ^ n := by
    field_simp
    ring
  rw [heq, abs_div, abs_of_pos h10]
  rw [div_le_div_iff h10 (by positivity)]
  calc |(roundHalfEven (x * 10 ^ n) : ℚ) - x * 10 ^ n| * (2 * 10 ^ n)
      ≤ (1 / 2) * (2 * 10 ^ n) := by
        apply mul_le_mul_of_nonneg_right h
        positivity
    _ = 1 * 10 ^ n := by ring

/-- The two rounded area fields of a tile agree up to the granularity of the
coarser field (`area_sq_km` is rounded to 4 decimals, i.e. 100 m², plus the
half-cent of `area_sq_meters`). -/
theorem mkTile_area_coherent (cosr : ℚ → ℚ) (a b : ℚ) (n : ℕ) (x y : ℚ) :
    |(mkTile cosr a b n x y).area_sq_meters
      - (mkTile cosr a b n x y).area_sq_km * 1000000| ≤ 50 + 1 / 200 := by
  set A := a * 111132.954 * (b * 111319.488 * cosr (x + a / 2)) with hA
  have hm : (mkTile cosr a b n x y).area_sq_meters = pyRound A 2 := rfl
  have hk : (mkTile cosr a b n x y).area_sq_km = pyRound (A / 1000000) 4 := rfl
  rw [hm, hk]
  have h1 : |pyRound A 2 - A| ≤ 1 / 200 := by
    have := pyRound_abs_le A 2
    norm_num at this ⊢
    linarith
  have h2 : |pyRound (A / 1000000) 4 * 1000000 - A| ≤ 50 := by
    have h := pyRound_abs_le (A / 1000000) 4
    have heq : pyRound (A / 1000000) 4 * 1000000 - A
        = (pyRound (A / 1000000) 4 - A / 1000000) * 1000000 := by
      field_simp
    rw [heq, abs_mul]
    rw [show |(1000000 : ℚ)| = 1000000 from by norm_num]
    norm_num at h ⊢
    linarith
  calc |pyRound A 2 - pyRound (A / 1000000) 4 * 1000000|
      ≤ |pyRound A 2 - A| + |A - pyRound (A / 1000000) 4 * 1000000| :=
        abs_sub_le _ _ _
    _ ≤ 1 / 200 + 50 := by
        rw [abs_sub_comm A]
        exact add_le_add h1 h2
    _ = 50 + 1 / 200 := by ring

/-! ### Helper lemmas about the aggregator -/

/-- Whether an `Except`-modelled computation succeeded (no exception). -/
def exceptIsOk {α : Type} : Except String α → Bool
  | .ok _ => true
  | .error _ => false

/-- Whether an `Except`-modelled computation raised. -/
def exceptIsError {α : Type} : Except String α → Bool
  | .ok _ => false
  | .error _ => true

theorem exceptIsOk_eq_true {α : Type} (e : Except String α) :
    exceptIsOk e = true ↔ ∃ c, e = .ok c := by
  cases e <;> simp [exceptIsOk]

/-- With a polygon area present, `compute_insights` never raises and builds
exactly this payload. -/
theorem compute_insights_payload_custom (insights included_types : List String)
    (latitude longitude radius : Option ℚ) (poly : List Coord)
    (excluded_types : Option (List String)) (rating_min rating_max : Option ℚ)
    (operating_status price_levels : Option (List String)) :
    compute_insights_payload insights included_types latitude longitude radius
        (some poly) excluded_types rating_min rating_max operating_status price_levels
      = .ok { insights :=
                if "INSIGHT_COUNT" ∉ insights ∨ insights.length > 1
                then ["INSIGHT_COUNT"] else insights
            , locationFilter := .customArea poly
            , includedTypes := included_types
            , excludedTypes :=
                match excluded_types with
                | some l => if l = [] then none else some l
                | none => none
            , operatingStatus := operating_status
            , priceLevels := price_levels
            , ratingFilter :=
                if rating_min.isSome ∨ rating_max.isSome
                then some { minRating := rating_min, maxRating := rating_max }
                else none } := rfl

/-- The payload `find_places_nearby_polygon` hands to the remote client:
the insight list is already forced to `["INSIGHT_COUNT"]`. -/
def polyPayload (place_types : List String) (polygon : List Coord)
    (excluded_types : Option (List String)) (rating_min rating_max : Option ℚ)
    (operating_status price_levels : Option (List String)) : Payload :=
  { insights := ["INSIGHT_COUNT"]
  , locationFilter := .customArea polygon
  , includedTypes := place_types
  , excludedTypes :=
      match excluded_types with
      | some l => if l = [] then none else some l
      | none => none
  , operatingStatus := operating_status
  , priceLevels := price_levels
  , ratingFilter :=
      if rating_min.isSome ∨ rating_max.isSome
      then some { minRating := rating_min, maxRating := rating_max }
      else none }

/-- `find_places_nearby_polygon` is the remote call on the forced payload,
wrapped in the result dictionary. -/
theorem find_places_nearby_polygon_eq (oracle : Payload → RemoteOutcome)
    (polygon : List Coord) (pts ins : List String) (et : Option (List String))
    (rmin rmax : Option ℚ) (os pl : Option (List String)) :
    find_places_nearby_polygon oracle polygon pts ins et rmin rmax os pl
      = match oracle (polyPayload pts polygon et rmin rmax os pl) with
        | .success resp => { success := true, response := some resp }
        | .failure e r => { success := false, error := some e, reason := some r }
        | .raised m => { success := false, error := some ("Exception"), reason := some m } :=
  rfl

/-- Per-tile totality of the aggregation step, under the assumption that
every successful remote response carries a parseable count: the step never
raises, keeps the tile id, and converts a failed polygon search into
`success = false, count = 0`. -/
theorem tileStep_ok (oracle : Payload → RemoteOutcome)
    (pts ins : List String) (et : Option (List String)) (rmin rmax : Option ℚ)
    (os pl : Option (List String)) (t : Tile)
    (hsafe : ∀ p resp, oracle p = .success resp →
      exceptIsOk (pyInt ((JObj.get resp ("count")).getD (JVal.num 0))) = true) :
    ∃ r, tileStep oracle pts ins et rmin rmax os pl t = .ok r ∧
      r.tile_id = t.id ∧
      ((find_places_nearby_polygon oracle t.polygon pts ins et rmin rmax os pl).success
          = false →
        r.success = false ∧ r.count = 0) := by
  simp only [tileStep, find_places_nearby_polygon_eq]
  cases horacle : oracle (polyPayload pts t.polygon et rmin rmax os pl) with
  | success resp =>
    simp only [horacle]
    by_cases htr : truthyObj (some resp)
    · obtain ⟨c, hc⟩ := (exceptIsOk_eq_true _).mp (hsafe _ resp horacle)
      refine ⟨{ tile_id := t.id, lat := t.centroid.lat, lon := t.centroid.lon
              , tile_area_sq_km := t.area_sq_km, success := true, count := c }, ?_, rfl, ?_⟩
      · rcases hcount : JObj.get resp ("count") with _ | v
        · rw [hcount] at hc
          simp only [Option.getD] at hc
          simp [htr, hcount, hc, Except.map]
        · rw [hcount] at hc
          simp only [Option.getD] at hc
          simp [htr, hcount, hc, Except.map]
      · intro hfalse
        simp at hfalse
    · refine ⟨{ tile_id := t.id, lat := t.centroid.lat, lon := t.centroid.lon
              , tile_area_sq_km := t.area_sq_km, success := true, count := 0 }, ?_, rfl, ?_⟩
      · simp [htr]
        rfl
      · intro hfalse
        simp at hfalse
  | failure e r =>
    simp only [horacle]
    refine ⟨{ tile_id := t.id, lat := t.centroid.lat, lon := t.centroid.lon
            , tile_area_sq_km := t.area_sq_km, success := false, count := 0 }, ?_, rfl, ?_⟩
    · simp [truthyObj]
      rfl
    · intro _
      exact ⟨rfl, rfl⟩
  | raised m =>
    simp only [horacle]
    refine ⟨{ tile_id := t.id, lat := t.centroid.lat, lon := t.centroid.lon
            , tile_area_sq_km := t.area_sq_km, success := false, count := 0 }, ?_, rfl, ?_⟩
    · simp [truthyObj]
      rfl
    · intro _
      exact ⟨rfl, rfl⟩

/-- The sequential collection loop succeeds, preserving length and order,
whenever every single step succeeds. -/
theorem collectResults_ok (oracle : Payload → RemoteOutcome)
    (pts ins : List String) (et : Option (List String)) (rmin rmax : Option ℚ)
    (os pl : Option (List String)) (P : Tile → TileResult → Prop)
    (tiles : List Tile)
    (h : ∀ t ∈ tiles, ∃ r, tileStep oracle pts ins et rmin rmax os pl t = .ok r ∧ P t r) :
    ∃ rs, collectResults oracle pts ins et rmin rmax os pl tiles = .ok rs ∧
      rs.length = tiles.length ∧
      ∀ m (h1 : m < tiles.length) (h2 : m < rs.length), P tiles[m] rs[m] := by
  induction tiles with
  | nil =>
    refine ⟨[], rfl, rfl, ?_⟩
    intro m h1 h2
    simp at h1
  | cons t ts ih =>
    obtain ⟨r, hr, hP⟩ := h t (List.mem_cons_self t ts)
    obtain ⟨rs, hrs, hlen, hidx⟩ := ih (fun u hu => h u (List.mem_cons_of_mem t hu))
    refine ⟨r :: rs, ?_, by simp [hlen], ?_⟩
    · unfold collectResults
      rw [hr, hrs]
      rfl
    · intro m h1 h2
      cases m with
      | zero => simpa using hP
      | succ k =>
        simp only [List.getElem_cons_succ]
        exact hidx k (by simpa using h1) (by simpa using h2)

/-- `find_places_in_grid` as a single match on the composed pipeline. -/
theorem find_places_in_grid_eq (cosr : ℚ → ℚ) (sqrtFn : ℤ → ℚ)
    (oracle : Payload → RemoteOutcome) (lat lon box : ℚ) (tc : ℤ)
    (pts ins : List String) (et : Option (List String)) (rmin rmax : Option ℚ)
    (os pl : Option (List String)) :
    find_places_in_grid cosr sqrtFn oracle lat lon box tc pts ins et rmin rmax os pl
      = match (TileGenerator.init tc >>= fun g =>
            g.generate_tiles_from_center cosr sqrtFn lat lon box) >>=
            collectResults oracle pts ins et rmin rmax os pl with
        | .ok results =>
          { success := true, grid_results := some results, error := none, reason := none }
        | .error e =>
          { success := false, grid_results := none
          , error := some ("Exception"), reason := some e } := by
  unfold find_places_in_grid
  cases TileGenerator.init tc with
  | error e => rfl
  | ok g =>
    cases g.generate_tiles_from_center cosr sqrtFn lat lon box with
    | error e => rfl
    | ok tiles => rfl

/-! ### Concrete instantiations used for witnesses and counterexamples -/

/-- A concrete stand-in for `math.sqrt` on the integer inputs used below
(`4 ↦ 2`, otherwise `1`); IEEE-754 `math.sqrt` is also exact on perfect
squares. -/
def sqrtDemo (n : ℤ) : ℚ := if n = 4 then 2 else 1

/-- A concrete stand-in for `math.cos ∘ math.radians` (constant 1, the
exact value at the equator). -/
def cosr1 : ℚ → ℚ := fun _ => 1

/-- A concrete cosine stand-in chosen so that a box of
`2 * 111132.954` meters around the origin is exactly `[-1, 1] × [-1, 1]`
in degrees. -/
def cosrDemo : ℚ → ℚ := fun _ => 111132.954 / 111319.488

/-- A remote client that always answers successfully with a count that is
not numeric text. -/
def oracleBadCount : Payload → RemoteOutcome :=
  fun _ => RemoteOutcome.success [(("count"), JVal.str ("abc"))]

/-- A remote client whose calls always fail. -/
def oracleFail : Payload → RemoteOutcome :=
  fun _ => RemoteOutcome.failure ("API request failed") ("boom")

theorem demo_bounds :
    boundsFromCenter cosrDemo 0 0 (2 * 111132.954)
      = { sw_lat := -1, sw_lon := -1, ne_lat := 1, ne_lon := 1 } := by
  simp only [boundsFromCenter, cosrDemo]
  norm_num [Bounds.mk.injEq]

theorem rowsOf_demo1 : rowsOf (-1 : ℚ) 1 2 = 1 := by
  have h := rowsOf_eq (-1 : ℚ) 1 1 (by norm_num) (by norm_num [epsilon])
  rw [show ((1 : ℚ) - -1) / ((1 : ℕ) : ℚ) = 2 by norm_num] at h
  exact h

theorem rowsOf_demo2 : rowsOf (-1 : ℚ) 1 1 = 2 := by
  have h := rowsOf_eq (-1 : ℚ) 1 2 (by norm_num) (by norm_num [epsilon])
  rw [show ((1 : ℚ) - -1) / ((2 : ℕ) : ℚ) = 1 by norm_num] at h
  exact h

/-- The 1-tile demo grid: target count 1 on the `[-1,1] × [-1,1]` box. -/
theorem demo_tiles1 :
    (TileGenerator.init 1 >>= fun g =>
        g.generate_tiles_from_center cosrDemo sqrtDemo 0 0 (2 * 111132.954))
      = .ok [mkTile cosrDemo 2 2 0 (-1) (-1)] := by
  have hinit : TileGenerator.init 1 = .ok ⟨1⟩ := by
    simp [TileGenerator.init]
  rw [hinit]
  show (⟨1⟩ : TileGenerator).generate_tiles_from_center cosrDemo sqrtDemo 0 0
      (2 * 111132.954) = _
  unfold TileGenerator.generate_tiles_from_center
  rw [demo_bounds]
  rw [generate_tiles_closed ⟨1⟩ cosrDemo sqrtDemo _ (by norm_num)
    (by norm_num [sqrtDemo])]
  have hsq : sqrtDemo ((⟨1⟩ : TileGenerator).target_tile_count) = 1 := by
    norm_num [sqrtDemo]
  simp only [hsq]
  rw [show ((1 : ℚ) - -1) / 1 = 2 by norm_num]
  rw [rowsOf_demo1]
  unfold tileGridSpec
  rw [show List.range 1 = [0] from rfl]
  simp only [List.flatMap_cons, List.flatMap_nil, List.map_cons, List.map_nil,
    List.append_nil]
  norm_num

/-- The 4-tile demo grid: target count 4 on the `[-1,1] × [-1,1]` box. -/
theorem demo_tiles4 :
    (TileGenerator.init 4 >>= fun g =>
        g.generate_tiles_from_center cosrDemo sqrtDemo 0 0 (2 * 111132.954))
      = .ok [ mkTile cosrDemo 1 1 0 (-1) (-1), mkTile cosrDemo 1 1 1 (-1) 0
            , mkTile cosrDemo 1 1 2 0 (-1), mkTile cosrDemo 1 1 3 0 0 ] := by
  have hinit : TileGenerator.init 4 = .ok ⟨4⟩ := by
    simp [TileGenerator.init]
  rw [hinit]
  show (⟨4⟩ : TileGenerator).generate_tiles_from_center cosrDemo sqrtDemo 0 0
      (2 * 111132.954) = _
  unfold TileGenerator.generate_tiles_from_center
  rw [demo_bounds]
  rw [generate_tiles_closed ⟨4⟩ cosrDemo sqrtDemo _ (by norm_num)
    (by norm_num [sqrtDemo])]
  have hsq : sqrtDemo ((⟨4⟩ : TileGenerator).target_tile_count) = 2 := by
    norm_num [sqrtDemo]
  simp only [hsq]
  rw [show ((1 : ℚ) - -1) / 2 = 1 by norm_num]
  rw [rowsOf_demo2]
  unfold tileGridSpec
  rw [show List.range 2 = [0, 1] from rfl]
  simp only [List.flatMap_cons, List.flatMap_nil, List.map_cons, List.map_nil,
    List.append_nil, List.cons_append, List.nil_append]
  norm_num

/-! ### The claims -/

theorem assignTiles_mem (cosr : ℚ → ℚ) (a b : ℚ) (n : ℕ) (l : List (ℚ × ℚ))
    (t : Tile) (h : t ∈ assignTiles cosr a b n l) :
    ∃ (m : ℕ) (c : ℚ × ℚ), t = mkTile cosr a b m c.1 c.2 := by
  induction l generalizing n with
  | nil => simp [assignTiles] at h
  | cons c cs ih =>
    simp only [assignTiles, List.mem_cons] at h
    rcases h with h | h
    · exact ⟨n, c, h⟩
    · exact ih (n + 1) h

theorem demo_gen_unit :
    (⟨1⟩ : TileGenerator).generate_tiles cosr1 sqrtDemo ⟨-1, -1, 1, 1⟩
      = .ok [mkTile cosr1 2 2 0 (-1) (-1)] := by
  rw [generate_tiles_closed ⟨1⟩ cosr1 sqrtDemo _ ⟨by norm_num, by norm_num⟩
    (by norm_num [sqrtDemo])]
  have hsq : sqrtDemo ((⟨1⟩ : TileGenerator).target_tile_count) = 1 := by
    norm_num [sqrtDemo]
  simp only [hsq]
  rw [show ((1 : ℚ) - -1) / 1 = 2 by norm_num]
  rw [rowsOf_demo1]
  unfold tileGridSpec
  rw [show List.range 1 = [0] from rfl]
  simp only [List.flatMap_cons, List.flatMap_nil, List.map_cons, List.map_nil,
    List.append_nil]
  norm_num

/-- C2: whenever a polygon (`custom_area`) location filter is used, the
payload sent to the Area Insights client has its insight list equal to
exactly `["INSIGHT_COUNT"]`, for every requested insight list. -/
theorem C2_polygon_forces_count (insights included_types : List String)
    (latitude longitude radius : Option ℚ) (poly : List Coord)
    (excluded_types : Option (List String)) (rating_min rating_max : Option ℚ)
    (operating_status price_levels : Option (List String)) (p : Payload)
    (h : compute_insights_payload insights included_types latitude longitude radius
        (some poly) excluded_types rating_min rating_max operating_status price_levels
      = .ok p) :
    p.insights = ["INSIGHT_COUNT"] := by
  rw [compute_insights_payload_custom] at h
  cases h
  show (if "INSIGHT_COUNT" ∉ insights ∨ insights.length > 1
    then ["INSIGHT_COUNT"] else insights) = ["INSIGHT_COUNT"]
  by_cases hc : "INSIGHT_COUNT" ∉ insights ∨ insights.length > 1
  · rw [if_pos hc]
  · rw [if_neg hc]
    push_neg at hc
    obtain ⟨hmem, hlen⟩ := hc
    have hlen1 : insights.length = 1 := by
      have := List.length_pos.mpr (List.ne_nil_of_mem hmem)
      omega
    obtain ⟨a, ha⟩ := List.length_eq_one.mp hlen1
    subst ha
    rw [List.mem_singleton.mp hmem]

theorem C2_polygon_forces_count_witness :
    ∃ p, compute_insights_payload (["INSIGHT_PLACES"]) (["restaurant"])
        none none none (some []) none none none none none = .ok p ∧
      p.insights = ["INSIGHT_COUNT"] := by
  have h := compute_insights_payload_custom (["INSIGHT_PLACES"]) (["restaurant"])
    none none none [] none none none none none
  exact ⟨_, h, C2_polygon_forces_count _ _ _ _ _ _ _ _ _ _ _ _ h⟩

/-- C9: tile generation fails with `ValueError` (the `InvalidArgument` of
the spec) exactly when the bounds are invalid or the target tile count is
non-positive, and building from a center fails whenever the box size is
non-positive; valid inputs never fail, so nothing is silently corrected. -/
theorem C9_invalid_arguments :
    (∀ tc : ℤ, exceptIsError (TileGenerator.init tc) = true ↔ tc ≤ 0) ∧
    (∀ (g : TileGenerator) (cosr : ℚ → ℚ) (sqrtFn : ℤ → ℚ) (b : Bounds),
      0 < sqrtFn g.target_tile_count →
      (exceptIsError (g.generate_tiles cosr sqrtFn b) = true
        ↔ ¬(b.ne_lat > b.sw_lat ∧ b.ne_lon > b.sw_lon))) ∧
    (∀ (g : TileGenerator) (cosr : ℚ → ℚ) (sqrtFn : ℤ → ℚ)
      (center_lat center_lon box : ℚ), box ≤ 0 →
      exceptIsError
        (g.generate_tiles_from_center cosr sqrtFn center_lat center_lon box) = true) := by
  refine ⟨?_, ?_, ?_⟩
  · intro tc
    by_cases h : tc ≤ 0 <;> simp [TileGenerator.init, h, exceptIsError]
  · intro g cosr sqrtFn b _
    by_cases hval : b.ne_lat > b.sw_lat ∧ b.ne_lon > b.sw_lon <;>
      simp [TileGenerator.generate_tiles, hval, exceptIsError]
  · intro g cosr sqrtFn center_lat center_lon box hbox
    unfold TileGenerator.generate_tiles_from_center TileGenerator.generate_tiles
    rw [if_neg]
    · rfl
    · intro hcontra
      have h1 := hcontra.1
      have h2 : (boundsFromCenter cosr center_lat center_lon box).ne_lat
          - (boundsFromCenter cosr center_lat center_lon box).sw_lat
          = box / 111132.954 := by
        simp only [boundsFromCenter]
        ring
      have h3 : box / 111132.954 ≤ 0 :=
        div_nonpos_of_nonpos_of_nonneg hbox (by norm_num)
      rw [gt_iff_lt, ← sub_pos, h2] at h1
      linarith

theorem C9_invalid_arguments_witness :
    exceptIsError (TileGenerator.init 0) = true
    ∧ exceptIsError ((⟨4⟩ : TileGenerator).generate_tiles cosr1 sqrtDemo
        ⟨0, 0, 1, 1⟩) = false
    ∧ exceptIsError ((⟨4⟩ : TileGenerator).generate_tiles_from_center cosr1 sqrtDemo
        0 0 (-5)) = true := by
  refine ⟨(C9_invalid_arguments.1 0).mpr (by norm_num), ?_,
    C9_invalid_arguments.2.2 ⟨4⟩ cosr1 sqrtDemo 0 0 (-5) (by norm_num)⟩
  have h := C9_invalid_arguments.2.1 ⟨4⟩ cosr1 sqrtDemo ⟨0, 0, 1, 1⟩
    (by norm_num [sqrtDemo])
  rcases Bool.eq_false_or_eq_true
      (exceptIsError ((⟨4⟩ : TileGenerator).generate_tiles cosr1 sqrtDemo
        ⟨0, 0, 1, 1⟩)) with ht | hf
  · exact absurd (h.mp ht) (by norm_num)
  · exact hf

/-- C10: `find_places_in_grid` always returns a result dictionary (never
propagates an exception): either a success dictionary carrying
`grid_results`, or `{success: false, error: "Exception", reason: msg}`;
in particular a non-positive tile count produces the latter with the
`ValueError` message of the generator. -/
theorem C10_returns_dict (cosr : ℚ → ℚ) (sqrtFn : ℤ → ℚ)
    (oracle : Payload → RemoteOutcome) (lat lon box : ℚ) (tc : ℤ)
    (pts ins : List String) (et : Option (List String)) (rmin rmax : Option ℚ)
    (os pl : Option (List String)) :
    ((∃ rs, find_places_in_grid cosr sqrtFn oracle lat lon box tc pts ins et rmin rmax os pl
        = { success := true, grid_results := some rs, error := none, reason := none })
      ∨ (∃ m, find_places_in_grid cosr sqrtFn oracle lat lon box tc pts ins et rmin rmax os pl
        = { success := false, grid_results := none
          , error := some ("Exception"), reason := some m }))
    ∧ (tc ≤ 0 →
      find_places_in_grid cosr sqrtFn oracle lat lon box tc pts ins et rmin rmax os pl
        = { success := false, grid_results := none, error := some ("Exception")
          , reason := some ("Target tile count must be a positive number.") }) := by
  constructor
  · cases hres : ((TileGenerator.init tc >>= fun g =>
        g.generate_tiles_from_center cosr sqrtFn lat lon box) >>=
        collectResults oracle pts ins et rmin rmax os pl) with
    | ok results =>
      left
      exact ⟨results, by rw [find_places_in_grid_eq, hres]⟩
    | error e =>
      right
      exact ⟨e, by rw [find_places_in_grid_eq, hres]⟩
  · intro htc
    rw [find_places_in_grid_eq]
    have hinit : TileGenerator.init tc
        = .error ("Target tile count must be a positive number.") := by
      unfold TileGenerator.init
      rw [if_pos htc]
    rw [hinit]
    rfl

theorem C10_returns_dict_witness :
    find_places_in_grid cosr1 sqrtDemo oracleFail 0 0 1000 0
        (["restaurant"]) (["INSIGHT_COUNT"]) none none none none none
      = { success := false, grid_results := none, error := some ("Exception")
        , reason := some ("Target tile count must be a positive number.") } :=
  (C10_returns_dict cosr1 sqrtDemo oracleFail 0 0 1000 0
    (["restaurant"]) (["INSIGHT_COUNT"]) none none none none none).2 (by norm_num)

/-- C3 (amended): on a valid bounding box whose latitude and longitude
extents both exceed the loop epsilon `1e-9` (and for a positive
`tiles_per_side`, as `math.sqrt` yields on every positive count),
`generateTiles` returns at least one tile, the tile ids are exactly
`0, 1, 2, ...` in emission order, and every polygon is a closed 5-point
ring.  (As stated, the claim fails for thinner boxes: see the
counterexample, where a valid box yields zero tiles.) -/
theorem C3_grid_structure (g : TileGenerator) (cosr : ℚ → ℚ) (sqrtFn : ℤ → ℚ)
    (b : Bounds) (hb : b.ne_lat > b.sw_lat ∧ b.ne_lon > b.sw_lon)
    (hs : 0 < sqrtFn g.target_tile_count)
    (hlat : epsilon < b.ne_lat - b.sw_lat) (hlon : epsilon < b.ne_lon - b.sw_lon) :
    ∃ ts, g.generate_tiles cosr sqrtFn b = .ok ts ∧ 1 ≤ ts.length ∧
      ts.map Tile.id = List.range ts.length ∧
      ∀ t ∈ ts, t.polygon.length = 5 ∧ t.polygon.head? = t.polygon.getLast? := by
  refine ⟨_, generate_tiles_closed g cosr sqrtFn b hb hs, ?_, ?_, ?_⟩
  · rw [tileGridSpec_length]
    have h1 : 1 ≤ rowsOf b.sw_lat b.ne_lat
        ((b.ne_lat - b.sw_lat) / sqrtFn g.target_tile_count) :=
      rowsOf_pos _ _ _ (div_pos (by linarith [hb.1]) hs) hlat
    have h2 : 1 ≤ rowsOf b.sw_lon b.ne_lon
        ((b.ne_lon - b.sw_lon) / sqrtFn g.target_tile_count) :=
      rowsOf_pos _ _ _ (div_pos (by linarith [hb.2]) hs) hlon
    simpa using Nat.mul_le_mul h1 h2
  · rw [tileGridSpec_map_id, tileGridSpec_length]
  · intro t ht
    obtain ⟨i, j, _, _, rfl⟩ := tileGridSpec_mem _ _ _ _ _ _ _ _ ht
    exact ⟨rfl, rfl⟩

theorem C3_grid_structure_witness :
    ∃ ts, (⟨1⟩ : TileGenerator).generate_tiles cosr1 sqrtDemo ⟨-1, -1, 1, 1⟩
        = .ok ts ∧ 1 ≤ ts.length ∧
      ts.map Tile.id = List.range ts.length ∧
      ∀ t ∈ ts, t.polygon.length = 5 ∧ t.polygon.head? = t.polygon.getLast? :=
  C3_grid_structure ⟨1⟩ cosr1 sqrtDemo ⟨-1, -1, 1, 1⟩ ⟨by norm_num, by norm_num⟩
    (by norm_num [sqrtDemo]) (by norm_num [epsilon]) (by norm_num [epsilon])

/-- C3 counterexample: the box `(0, 0) – (1e-10, 1)` is valid
(`ne_lat > sw_lat`, `ne_lon > sw_lon`) and the target count 1 is positive
(with `sqrt(1) = 1` exactly), yet `generate_tiles` emits zero tiles,
because the latitude extent `1e-10` is below the loop epsilon `1e-9`. -/
theorem C3_counterexample :
    ((0 : ℚ) < 1e-10 ∧ (0 : ℚ) < 1) ∧ sqrtDemo 1 = 1 ∧
    (⟨1⟩ : TileGenerator).generate_tiles cosr1 sqrtDemo ⟨0, 0, 1e-10, 1⟩
      = .ok [] := by
  refine ⟨⟨by norm_num, by norm_num⟩, by norm_num [sqrtDemo], ?_⟩
  rw [generate_tiles_closed ⟨1⟩ cosr1 sqrtDemo _ ⟨by norm_num, by norm_num⟩
    (by norm_num [sqrtDemo])]
  congr 1
  apply List.eq_nil_of_length_eq_zero
  rw [tileGridSpec_length]
  apply Nat.mul_eq_zero.mpr
  left
  unfold rowsOf
  apply Nat.ceil_eq_zero.mpr
  norm_num [sqrtDemo, epsilon]

/-- C4 (amended): when `sqrt(target_tile_count)` is exactly an integer `k`
and each per-tile size `extent / k` exceeds the loop epsilon `1e-9`,
`generateTiles` produces exactly `k * k` tiles, and the per-tile sizes are
the extents divided by the (unrounded) square root.  (As stated, the claim
fails when a per-tile size drops below the epsilon: see the
counterexample.) -/
theorem C4_tile_count (g : TileGenerator) (cosr : ℚ → ℚ) (sqrtFn : ℤ → ℚ)
    (b : Bounds) (k : ℕ) (hk : 0 < k)
    (hb : b.ne_lat > b.sw_lat ∧ b.ne_lon > b.sw_lon)
    (hsk : sqrtFn g.target_tile_count = (k : ℚ))
    (hlat : epsilon < (b.ne_lat - b.sw_lat) / (k : ℚ))
    (hlon : epsilon < (b.ne_lon - b.sw_lon) / (k : ℚ)) :
    g.calculate_tile_size sqrtFn b
        = { lat_tile_size := (b.ne_lat - b.sw_lat) / (k : ℚ)
          , lon_tile_size := (b.ne_lon - b.sw_lon) / (k : ℚ) } ∧
    ∃ ts, g.generate_tiles cosr sqrtFn b = .ok ts ∧ ts.length = k * k := by
  have hk0 : (0 : ℚ) < (k : ℚ) := by exact_mod_cast hk
  constructor
  · unfold TileGenerator.calculate_tile_size
    rw [hsk]
  · refine ⟨_, generate_tiles_closed g cosr sqrtFn b hb (hsk ▸ hk0), ?_⟩
    rw [tileGridSpec_length, hsk, rowsOf_eq _ _ k hk hlat, rowsOf_eq _ _ k hk hlon]

theorem C4_tile_count_witness :
    (⟨4⟩ : TileGenerator).calculate_tile_size sqrtDemo ⟨-1, -1, 1, 1⟩
        = { lat_tile_size := ((1 : ℚ) - -1) / ((2 : ℕ) : ℚ)
          , lon_tile_size := ((1 : ℚ) - -1) / ((2 : ℕ) : ℚ) } ∧
    ∃ ts, (⟨4⟩ : TileGenerator).generate_tiles cosr1 sqrtDemo ⟨-1, -1, 1, 1⟩
        = .ok ts ∧ ts.length = 2 * 2 :=
  C4_tile_count ⟨4⟩ cosr1 sqrtDemo ⟨-1, -1, 1, 1⟩ 2 (by norm_num)
    ⟨by norm_num, by norm_num⟩ (by norm_num [sqrtDemo])
    (by norm_num [epsilon]) (by norm_num [epsilon])

/-- C4 counterexample: the box `(0, 0) – (1e-10, 1e-10)` is valid and
`sqrt(1) = 1` is the integer `k = 1`, yet `generate_tiles` emits 0 tiles
rather than `k * k = 1`, because the per-tile size `1e-10` is below the
loop epsilon `1e-9`. -/
theorem C4_counterexample :
    sqrtDemo 1 = 1 ∧ ((0 : ℚ) < 1e-10 ∧ (0 : ℚ) < 1e-10) ∧
    (⟨1⟩ : TileGenerator).generate_tiles cosr1 sqrtDemo ⟨0, 0, 1e-10, 1e-10⟩
      = .ok [] ∧ ([] : List Tile).length ≠ 1 * 1 := by
  refine ⟨by norm_num [sqrtDemo], ⟨by norm_num, by norm_num⟩, ?_, by norm_num⟩
  rw [generate_tiles_closed ⟨1⟩ cosr1 sqrtDemo _ ⟨by norm_num, by norm_num⟩
    (by norm_num [sqrtDemo])]
  congr 1
  apply List.eq_nil_of_length_eq_zero
  rw [tileGridSpec_length]
  apply Nat.mul_eq_zero.mpr
  left
  unfold rowsOf
  apply Nat.ceil_eq_zero.mpr
  norm_num [sqrtDemo, epsilon]

/-- C5: for every tile emitted by `generateTiles`, the stored
`area_sq_meters` equals the stored `area_sq_km * 1_000_000` up to the
precision the two fields are rounded to (4 decimals of km², i.e. 50 m²
half-step, plus the half-cent of the meters field). -/
theorem C5_area_consistency (g : TileGenerator) (cosr : ℚ → ℚ) (sqrtFn : ℤ → ℚ)
    (b : Bounds) (ts : List Tile) (h : g.generate_tiles cosr sqrtFn b = .ok ts) :
    ∀ t ∈ ts, |t.area_sq_meters - t.area_sq_km * 1000000| ≤ 50 + 1 / 200 := by
  intro t ht
  unfold TileGenerator.generate_tiles at h
  by_cases hval : b.ne_lat > b.sw_lat ∧ b.ne_lon > b.sw_lon
  · rw [if_pos hval] at h
    cases h
    obtain ⟨m, c, rfl⟩ := assignTiles_mem _ _ _ _ _ _ ht
    exact mkTile_area_coherent _ _ _ _ _ _
  · rw [if_neg hval] at h
    cases h

theorem C5_area_consistency_witness :
    |(mkTile cosr1 2 2 0 (-1) (-1)).area_sq_meters
      - (mkTile cosr1 2 2 0 (-1) (-1)).area_sq_km * 1000000| ≤ 50 + 1 / 200 :=
  C5_area_consistency ⟨1⟩ cosr1 sqrtDemo ⟨-1, -1, 1, 1⟩ _ demo_gen_unit
    (mkTile cosr1 2 2 0 (-1) (-1)) (List.mem_singleton.mpr rfl)

/-- C7: tiles are emitted in row-major order (south-to-north rows, then
west-to-east within a row) with ids `i * cols + j` matching the sequence;
each cell's centroid is its lower-left corner plus half the tile size in
each dimension, and the polygon lists lower-left, lower-right, upper-right,
upper-left, then repeats the first point. -/
theorem C7_row_major_order (g : TileGenerator) (cosr : ℚ → ℚ) (sqrtFn : ℤ → ℚ)
    (b : Bounds) (hb : b.ne_lat > b.sw_lat ∧ b.ne_lon > b.sw_lon)
    (hs : 0 < sqrtFn g.target_tile_count) :
    ∃ lat_ts lon_ts rows cols,
      lat_ts = (b.ne_lat - b.sw_lat) / sqrtFn g.target_tile_count ∧
      lon_ts = (b.ne_lon - b.sw_lon) / sqrtFn g.target_tile_count ∧
      rows = rowsOf b.sw_lat b.ne_lat lat_ts ∧
      cols = rowsOf b.sw_lon b.ne_lon lon_ts ∧
      g.generate_tiles cosr sqrtFn b = .ok (
        (List.range rows).flatMap fun i => (List.range cols).map fun j =>
          { id := i * cols + j
          , centroid := { lat := (b.sw_lat + (i : ℚ) * lat_ts) + lat_ts / 2
                        , lon := (b.sw_lon + (j : ℚ) * lon_ts) + lon_ts / 2 }
          , polygon :=
              [ { latitude := b.sw_lat + (i : ℚ) * lat_ts
                , longitude := b.sw_lon + (j : ℚ) * lon_ts }
              , { latitude := b.sw_lat + (i : ℚ) * lat_ts
                , longitude := (b.sw_lon + (j : ℚ) * lon_ts) + lon_ts }
              , { latitude := (b.sw_lat + (i : ℚ) * lat_ts) + lat_ts
                , longitude := (b.sw_lon + (j : ℚ) * lon_ts) + lon_ts }
              , { latitude := (b.sw_lat + (i : ℚ) * lat_ts) + lat_ts
                , longitude := b.sw_lon + (j : ℚ) * lon_ts }
              , { latitude := b.sw_lat + (i : ℚ) * lat_ts
                , longitude := b.sw_lon + (j : ℚ) * lon_ts } ]
          , area_sq_meters := pyRound ((lat_ts * 111132.954)
              * (lon_ts * 111319.488
                * cosr ((b.sw_lat + (i : ℚ) * lat_ts) + lat_ts / 2))) 2
          , area_sq_km := pyRound ((lat_ts * 111132.954)
              * (lon_ts * 111319.488
                * cosr ((b.sw_lat + (i : ℚ) * lat_ts) + lat_ts / 2)) / 1000000) 4 }) := by
  refine ⟨_, _, _, _, rfl, rfl, rfl, rfl, ?_⟩
  rw [generate_tiles_closed g cosr sqrtFn b hb hs]
  unfold tileGridSpec
  rfl

theorem C7_row_major_order_witness :
    ∃ lat_ts lon_ts rows cols,
      lat_ts = ((1 : ℚ) - -1) / sqrtDemo ((⟨1⟩ : TileGenerator).target_tile_count) ∧
      lon_ts = ((1 : ℚ) - -1) / sqrtDemo ((⟨1⟩ : TileGenerator).target_tile_count) ∧
      rows = rowsOf (-1 : ℚ) 1 lat_ts ∧
      cols = rowsOf (-1 : ℚ) 1 lon_ts ∧
      (⟨1⟩ : TileGenerator).generate_tiles cosr1 sqrtDemo ⟨-1, -1, 1, 1⟩ = .ok (
        (List.range rows).flatMap fun i => (List.range cols).map fun j =>
          { id := i * cols + j
          , centroid := { lat := ((-1 : ℚ) + (i : ℚ) * lat_ts) + lat_ts / 2
                        , lon := ((-1 : ℚ) + (j : ℚ) * lon_ts) + lon_ts / 2 }
          , polygon :=
              [ { latitude := (-1 : ℚ) + (i : ℚ) * lat_ts
                , longitude := (-1 : ℚ) + (j : ℚ) * lon_ts }
              , { latitude := (-1 : ℚ) + (i : ℚ) * lat_ts
                , longitude := ((-1 : ℚ) + (j : ℚ) * lon_ts) + lon_ts }
              , { latitude := ((-1 : ℚ) + (i : ℚ) * lat_ts) + lat_ts
                , longitude := ((-1 : ℚ) + (j : ℚ) * lon_ts) + lon_ts }
              , { latitude := ((-1 : ℚ) + (i : ℚ) * lat_ts) + lat_ts
                , longitude := (-1 : ℚ) + (j : ℚ) * lon_ts }
              , { latitude := (-1 : ℚ) + (i : ℚ) * lat_ts
                , longitude := (-1 : ℚ) + (j : ℚ) * lon_ts } ]
          , area_sq_meters := pyRound ((lat_ts * 111132.954)
              * (lon_ts * 111319.488
                * cosr1 (((-1 : ℚ) + (i : ℚ) * lat_ts) + lat_ts / 2))) 2
          , area_sq_km := pyRound ((lat_ts * 111132.954)
              * (lon_ts * 111319.488
                * cosr1 (((-1 : ℚ) + (i : ℚ) * lat_ts) + lat_ts / 2)) / 1000000) 4 }) :=
  C7_row_major_order ⟨1⟩ cosr1 sqrtDemo ⟨-1, -1, 1, 1⟩ ⟨by norm_num, by norm_num⟩
    (by norm_num [sqrtDemo])

/-- C8: the box built from a center is symmetric: the corners are the
center offset by half-extents computed from `box_size_meters / 2` at the
center's latitude, and each half-extent converts back to exactly
`box_size_meters / 2` meters using the same meters-per-degree factors. -/
theorem C8_box_symmetry (cosr : ℚ → ℚ) (center_lat center_lon box_size_meters : ℚ)
    (hpos : 0 < box_size_meters) :
    ∃ half_lat half_lon,
      half_lat = (box_size_meters / 2) / 111132.954 ∧
      half_lon = (box_size_meters / 2)
        / (if 111319.488 * cosr center_lat = 0 then (0.001 : ℚ)
           else 111319.488 * cosr center_lat) ∧
      boundsFromCenter cosr center_lat center_lon box_size_meters
        = { sw_lat := center_lat - half_lat, sw_lon := center_lon - half_lon
          , ne_lat := center_lat + half_lat, ne_lon := center_lon + half_lon } ∧
      half_lat * 111132.954 = box_size_meters / 2 ∧
      half_lon * (if 111319.488 * cosr center_lat = 0 then (0.001 : ℚ)
           else 111319.488 * cosr center_lat) = box_size_meters / 2 := by
  refine ⟨_, _, rfl, rfl, rfl, ?_, ?_⟩
  · rw [div_mul_cancel₀]
    norm_num
  · rw [div_mul_cancel₀]
    by_cases h0 : 111319.488 * cosr center_lat = 0
    · rw [if_pos h0]
      norm_num
    · rw [if_neg h0]
      exact h0

theorem C8_box_symmetry_witness :
    ∃ half_lat half_lon,
      half_lat = ((1000 : ℚ) / 2) / 111132.954 ∧
      half_lon = ((1000 : ℚ) / 2)
        / (if 111319.488 * cosr1 (37.7749 : ℚ) = 0 then (0.001 : ℚ)
           else 111319.488 * cosr1 (37.7749 : ℚ)) ∧
      boundsFromCenter cosr1 37.7749 (-122.4194) 1000
        = { sw_lat := (37.7749 : ℚ) - half_lat, sw_lon := (-122.4194 : ℚ) - half_lon
          , ne_lat := (37.7749 : ℚ) + half_lat, ne_lon := (-122.4194 : ℚ) + half_lon } ∧
      half_lat * 111132.954 = (1000 : ℚ) / 2 ∧
      half_lon * (if 111319.488 * cosr1 (37.7749 : ℚ) = 0 then (0.001 : ℚ)
           else 111319.488 * cosr1 (37.7749 : ℚ)) = (1000 : ℚ) / 2 :=
  C8_box_symmetry cosr1 37.7749 (-122.4194) 1000 (by norm_num)

/-- C6 (amended): when the longitude meters-per-degree factor evaluates to
exactly 0, the code substitutes `0.001` meters per degree (not
`0.001 × 111319.488`) as the divisor, so the conversion never divides by
zero and still returns a bounding box; the longitude half-extent is then
`(box_size_meters / 2) / 0.001` degrees. -/
theorem C6_pole_substitution (cosr : ℚ → ℚ) (center_lat center_lon box_size_meters : ℚ)
    (hcos : cosr center_lat = 0) :
    ((0.001 : ℚ) ≠ 0) ∧
    boundsFromCenter cosr center_lat center_lon box_size_meters
      = { sw_lat := center_lat - (box_size_meters / 2) / 111132.954
        , sw_lon := center_lon - (box_size_meters / 2) / 0.001
        , ne_lat := center_lat + (box_size_meters / 2) / 111132.954
        , ne_lon := center_lon + (box_size_meters / 2) / 0.001 } := by
  refine ⟨by norm_num, ?_⟩
  unfold boundsFromCenter
  rw [hcos]
  norm_num

theorem C6_pole_substitution_witness :
    ((0.001 : ℚ) ≠ 0) ∧
    boundsFromCenter (fun _ => 0) 90 0 1000
      = { sw_lat := (90 : ℚ) - ((1000 : ℚ) / 2) / 111132.954
        , sw_lon := (0 : ℚ) - ((1000 : ℚ) / 2) / 0.001
        , ne_lat := (90 : ℚ) + ((1000 : ℚ) / 2) / 111132.954
        , ne_lon := (0 : ℚ) + ((1000 : ℚ) / 2) / 0.001 } :=
  C6_pole_substitution (fun _ => 0) 90 0 1000 rfl

/-- C6 counterexample: with a zero cosine at latitude 90 the produced
north-east longitude is `500000` degrees — the divisor actually used is
`0.001`, not `0.001 × 111319.488` as the claim states (that substitution
would have produced about `4.49` degrees instead). -/
theorem C6_counterexample :
    (boundsFromCenter (fun _ => 0) 90 0 1000).ne_lon = 500000 ∧
    ((500000 : ℚ) ≠ 0 + (1000 / 2) / (0.001 * 111319.488)) := by
  constructor
  · norm_num [boundsFromCenter]
  · norm_num

/-- C1 (amended): whenever the grid is generated successfully and every
successful remote response carries a count the `int` coercion accepts, the
aggregator returns one `TileResult` per generated tile, in tile order with
the tile ids preserved, and a tile whose polygon search failed (remote
failure, or any exception caught inside `find_places_nearby_polygon`)
records `success = false, count = 0` without disturbing the other entries.
(As stated, the claim also covers a failing count parse; that case aborts
the whole aggregation instead — see the counterexample.) -/
theorem C1_partial_failure (cosr : ℚ → ℚ) (sqrtFn : ℤ → ℚ)
    (oracle : Payload → RemoteOutcome) (lat lon box : ℚ) (tc : ℤ)
    (pts ins : List String) (et : Option (List String)) (rmin rmax : Option ℚ)
    (os pl : Option (List String)) (tiles : List Tile)
    (hgen : (TileGenerator.init tc >>= fun g =>
        g.generate_tiles_from_center cosr sqrtFn lat lon box) = .ok tiles)
    (hsafe : ∀ p resp, oracle p = .success resp →
      exceptIsOk (pyInt ((JObj.get resp ("count")).getD (JVal.num 0))) = true) :
    ∃ rs, find_places_in_grid cosr sqrtFn oracle lat lon box tc pts ins et rmin rmax os pl
        = { success := true, grid_results := some rs, error := none, reason := none } ∧
      rs.length = tiles.length ∧
      ∀ m (h1 : m < tiles.length) (h2 : m < rs.length),
        (rs[m]).tile_id = (tiles[m]).id ∧
        ((find_places_nearby_polygon oracle (tiles[m]).polygon pts ins et rmin rmax
            os pl).success = false →
          (rs[m]).success = false ∧ (rs[m]).count = 0) := by
  obtain ⟨rs, hcoll, hlen, hidx⟩ := collectResults_ok oracle pts ins et rmin rmax os pl
    (fun t r => r.tile_id = t.id ∧
      ((find_places_nearby_polygon oracle t.polygon pts ins et rmin rmax os pl).success
          = false →
        r.success = false ∧ r.count = 0))
    tiles (fun t _ => tileStep_ok oracle pts ins et rmin rmax os pl t hsafe)
  refine ⟨rs, ?_, hlen, hidx⟩
  rw [find_places_in_grid_eq, hgen]
  have hb2 : (Except.ok tiles >>= collectResults oracle pts ins et rmin rmax os pl)
      = collectResults oracle pts ins et rmin rmax os pl tiles := rfl
  rw [hb2, hcoll]

theorem C1_partial_failure_witness :
    ∃ rs, find_places_in_grid cosrDemo sqrtDemo oracleFail 0 0 (2 * 111132.954) 1
        (["restaurant"]) (["INSIGHT_COUNT"]) none none none none none
        = { success := true, grid_results := some rs, error := none, reason := none } ∧
      rs.length = [mkTile cosrDemo 2 2 0 (-1) (-1)].length ∧
      ∀ m (h1 : m < [mkTile cosrDemo 2 2 0 (-1) (-1)].length) (h2 : m < rs.length),
        (rs[m]).tile_id = ([mkTile cosrDemo 2 2 0 (-1) (-1)][m]).id ∧
        ((find_places_nearby_polygon oracleFail
            ([mkTile cosrDemo 2 2 0 (-1) (-1)][m]).polygon
            (["restaurant"]) (["INSIGHT_COUNT"]) none none none none
            none).success = false →
          (rs[m]).success = false ∧ (rs[m]).count = 0) :=
  C1_partial_failure cosrDemo sqrtDemo oracleFail 0 0 (2 * 111132.954) 1
    (["restaurant"]) (["INSIGHT_COUNT"]) none none none none none
    [mkTile cosrDemo 2 2 0 (-1) (-1)] demo_tiles1
    (by intro p resp h; simp [oracleFail] at h)

/-- C1 counterexample: a 2×2 grid is generated (4 tiles), every remote call
succeeds with the textual count `"abc"`, and — because the `int(...)`
coercion lives outside the per-tile `try` — the very first tile's parse
failure aborts the whole aggregation: `find_places_in_grid` returns a
global failure dictionary with no `grid_results` at all, discarding every
tile, instead of one entry per tile. -/
theorem C1_counterexample :
    (TileGenerator.init 4 >>= fun g =>
        g.generate_tiles_from_center cosrDemo sqrtDemo 0 0 (2 * 111132.954))
      = .ok [ mkTile cosrDemo 1 1 0 (-1) (-1), mkTile cosrDemo 1 1 1 (-1) 0
            , mkTile cosrDemo 1 1 2 0 (-1), mkTile cosrDemo 1 1 3 0 0 ] ∧
    find_places_in_grid cosrDemo sqrtDemo oracleBadCount 0 0 (2 * 111132.954) 4
        (["restaurant"]) (["INSIGHT_COUNT"]) none none none none none
      = { success := false, grid_results := none, error := some ("Exception")
        , reason := some ("invalid literal for int with base 10: abc") } := by
  refine ⟨demo_tiles4, ?_⟩
  rw [find_places_in_grid_eq, demo_tiles4]
  have hstep : tileStep oracleBadCount (["restaurant"]) (["INSIGHT_COUNT"])
      none none none none none (mkTile cosrDemo 1 1 0 (-1) (-1))
      = .error ("invalid literal for int with base 10: abc") := by
    have hpy : pyInt (JVal.str ("abc"))
        = .error ("invalid literal for int with base 10: abc") := rfl
    simp only [tileStep, find_places_nearby_polygon_eq, oracleBadCount]
    simp [truthyObj, JObj.get, hpy]
  have hb2 : (Except.ok
        [ mkTile cosrDemo 1 1 0 (-1) (-1), mkTile cosrDemo 1 1 1 (-1) 0
        , mkTile cosrDemo 1 1 2 0 (-1), mkTile cosrDemo 1 1 3 0 0 ]
      >>= collectResults oracleBadCount (["restaurant"]) (["INSIGHT_COUNT"])
        none none none none none)
      = collectResults oracleBadCount (["restaurant"]) (["INSIGHT_COUNT"])
        none none none none none
        [ mkTile cosrDemo 1 1 0 (-1) (-1), mkTile cosrDemo 1 1 1 (-1) 0
        , mkTile cosrDemo 1 1 2 0 (-1), mkTile cosrDemo 1 1 3 0 0 ] := rfl
  rw [hb2]
  unfold collectResults
  rw [hstep]
  rfl

end Geo
